import Mathlib

/-!
Shallow embedding of the HVE (hardware video encoder) C library,
`src/hve.c` / `src/hve.h`, for checking its natural-language specification.

Pure values (return codes, pixel formats, configuration) are translated
directly.  Calls into the external FFmpeg backend (which the specification
treats as an opaque collaborator) are modelled by an explicit environment
record that fixes the outcome of each call site; resource
acquisition/release is tracked by an explicit event log so that cleanup
properties can be stated.
-/

namespace HVE

/-! ## Return codes and FFmpeg error constants (libavutil/error.h) -/

/-- `HVE_OK` from `hve.h` (`enum hve_retval_enum`). -/
def HVE_OK : Int := 0

/-- `HVE_ERROR` from `hve.h` (`enum hve_retval_enum`). -/
def HVE_ERROR : Int := -1

/-- `AVERROR(EAGAIN)` — FFmpeg negates the POSIX errno (EAGAIN = 11 on Linux). -/
def AVERROR_EAGAIN : Int := -11

/-- `AVERROR_EOF` — FFmpeg tag `FFERRTAG('E','O','F',' ')`, the negative of
the 32-bit little-endian packing of "EOF ". -/
def AVERROR_EOF : Int := -541478725

/-- `AVERROR(ENOMEM)` — negated POSIX errno (ENOMEM = 12 on Linux). -/
def AVERROR_ENOMEM : Int := -12

/-! ## Pixel formats

The `AVPixelFormat` constructors cover the formats the library's header
documents plus the two hardware formats `src/hve.c` mentions
(`AV_PIX_FMT_CUDA`, `AV_PIX_FMT_VAAPI`) and the `AV_PIX_FMT_NONE` sentinel. -/

/-- Modelled FFmpeg `enum AVPixelFormat`, restricted to the formats relevant
to this library (those listed in `hve.h` documentation plus the hardware
formats used by `hve.c`). -/
inductive AVPixelFormat where
  | NONE
  | NV12
  | P010LE
  | P016LE
  | YUV420P
  | YUYV422
  | UYVY422
  | YUV422P
  | RGB0
  | BGR0
  | CUDA
  | VAAPI
deriving DecidableEq, Repr

/-- Modelled FFmpeg pixel-format descriptor table (`av_pix_fmt_desc_get`):
for each format, `some` list of per-component bit depths, or `none` when no
descriptor exists.  Hardware formats (`CUDA`, `VAAPI`) have a descriptor
with zero components in FFmpeg, hence `some []`. -/
def av_pix_fmt_desc_get : AVPixelFormat → Option (List Int)
  | .NONE => none
  | .NV12 => some [8, 8, 8]
  | .P010LE => some [10, 10, 10]
  | .P016LE => some [16, 16, 16]
  | .YUV420P => some [8, 8, 8]
  | .YUYV422 => some [8, 8, 8]
  | .UYVY422 => some [8, 8, 8]
  | .YUV422P => some [8, 8, 8]
  | .RGB0 => some [8, 8, 8]
  | .BGR0 => some [8, 8, 8]
  | .CUDA => some []
  | .VAAPI => some []

/-- Modelled FFmpeg `av_get_pix_fmt`: name lookup in the pixel-format
registry, `AV_PIX_FMT_NONE` for an unknown name.  The table is restricted to
the formats named in the library's documentation plus the hardware entries. -/
def av_get_pix_fmt (name : String) : AVPixelFormat :=
  if name = "nv12" then .NV12
  else if name = "p010le" then .P010LE
  else if name = "p016le" then .P016LE
  else if name = "yuv420p" then .YUV420P
  else if name = "yuyv422" then .YUYV422
  else if name = "uyvy422" then .UYVY422
  else if name = "yuv422p" then .YUV422P
  else if name = "rgb0" then .RGB0
  else if name = "bgr0" then .BGR0
  else if name = "cuda" then .CUDA
  else .NONE

/-- `INT_MAX` for the `*depth = -INT_MAX` initialisation in
`hve_pixel_format_depth`. -/
def INT_MAX : Int := 2147483647

/-- `hve_pixel_format_depth` from `src/hve.c` (lines 313-327): maximum
component depth of a pixel format; `none` models the `HVE_ERROR` return when
the descriptor is missing or has no components (`!desc || !desc->nb_components`),
`some d` models `HVE_OK` with `*depth = d`. -/
def hve_pixel_format_depth (pix_fmt : AVPixelFormat) : Option Int :=
  match av_pix_fmt_desc_get pix_fmt with
  | none => none
  | some comps =>
    if comps.length = 0 then none
    else some (comps.foldl max (-INT_MAX))

/-! ## Data model -/

/-- `struct hve_config` from `src/hve.h`, restricted to the fields
`src/hve.c` reads.  C `NULL` strings are `none`; the C code treats `NULL`
and `""` alike for `device`, `encoder` and `pixel_format`. -/
structure hve_config where
  width : Int
  height : Int
  input_width : Int
  input_height : Int
  framerate : Int
  device : Option String
  encoder : Option String
  pixel_format : Option String
  profile : Int
  max_b_frames : Int
  bit_rate : Int
  qp : Int
  gop_size : Int
  compression_level : Int
  low_power : Int
deriving DecidableEq, Repr

/-- Modelled `AVHWFramesContext` (the hardware surface pool description),
with the fields `init_hwframes_context` assigns. -/
structure AVHWFramesContext where
  format : AVPixelFormat
  sw_format : AVPixelFormat
  width : Int
  height : Int
  initial_pool_size : Int
deriving DecidableEq, Repr

/-- Modelled `AVCodecContext`, with the fields `hve_init` assigns.
Unassigned fields keep the FFmpeg allocation defaults
(`avcodec_alloc_context3`): `gop_size` 12, `profile` `FF_PROFILE_UNKNOWN`
(-99), `compression_level` `FF_COMPRESSION_DEFAULT` (-1). -/
structure AVCodecContext where
  width : Int
  height : Int
  gop_size : Int
  time_base : Int × Int
  framerate : Int × Int
  sample_aspect_ratio : Int × Int
  pix_fmt : AVPixelFormat
  profile : Int
  max_b_frames : Int
  bit_rate : Int
  compression_level : Int
  hw_frames_ctx : Option AVHWFramesContext
deriving DecidableEq, Repr

/-- The codec context as produced by `avcodec_alloc_context3` before
`hve_init` assigns any field. -/
def allocContextDefaults : AVCodecContext :=
  { width := 0, height := 0, gop_size := 12, time_base := (0, 1)
    framerate := (0, 1), sample_aspect_ratio := (0, 1), pix_fmt := .NONE
    profile := -99, max_b_frames := 0, bit_rate := 200000
    compression_level := -1, hw_frames_ctx := none }

/-- The scaling-graph source node (`h->buffersrc_ctx`): the parameters the
source passes in the `avfilter_graph_create_filter` argument string
`"video_size=WxH:pix_fmt=F:time_base=1/R:pixel_aspect=1/1"` plus the
hardware frame pool bound afterwards via `av_buffersrc_parameters_set`. -/
structure BufferSrcParams where
  width : Int
  height : Int
  pix_fmt : AVPixelFormat
  time_base : Int × Int
  pixel_aspect : Int × Int
  hw_frames_ctx : Option AVHWFramesContext
deriving DecidableEq, Repr

/-- Modelled `AVFilterGraph` (`h->filter_graph`): which construction steps of
`init_hardware_scaling` have completed, and the parsed description
`"format=vaapi,scale_vaapi=w=W:h=H"` (conversion target format and resize
node dimensions). -/
structure AVFilterGraph where
  buffersink_created : Bool
  parsed_format : Option AVPixelFormat
  scale_w : Option Int
  scale_h : Option Int
  configured : Bool
deriving DecidableEq, Repr

/-- A freshly allocated, empty filter graph (`avfilter_graph_alloc`). -/
def emptyFilterGraph : AVFilterGraph :=
  { buffersink_created := false, parsed_format := none
    scale_w := none, scale_h := none, configured := false }

/-- State of the `h->hw_frame` pointer: C `NULL`, an allocated `AVFrame`
shell without a hardware surface (after `av_frame_alloc`), or a frame
holding a hardware surface from the pool (after `av_hwframe_get_buffer`). -/
inductive HwFrame where
  | noFrame
  | allocated
  | withSurface
deriving DecidableEq, Repr

/-- The software staging frame (`h->sw_frame`) with the fields `hve_init`
and `hve_send_frame` assign; `data_set` records the pointer/stride `memcpy`
of `hve_send_frame`. -/
structure SWFrame where
  width : Int
  height : Int
  format : AVPixelFormat
  data_set : Bool
deriving DecidableEq, Repr

/-- `struct hve` from `src/hve.c` (lines 25-40).  Pointer members are
`Option`/`Bool` presence flags; `surfaces` is a ghost counter of hardware
surfaces currently owned by the pipeline (acquired from the pool and not yet
released), `fr_holds` a ghost flag telling whether `h->fr_frame` currently
references a surface, `used_device`/`used_encoder` record the values of the
`device`/`encoder` locals of `hve_init`, and `opened_qp` records the `"qp"`
entry of the options dictionary passed to `avcodec_open2`. -/
structure hve where
  sw_pix_fmt : AVPixelFormat
  hw_device_ctx : Bool
  avctx : Option AVCodecContext
  buffersrc_ctx : Option BufferSrcParams
  filter_graph : Option AVFilterGraph
  sw_frame : Option SWFrame
  hw_frame : HwFrame
  fr_frame : Bool
  enc_pkt : Bool
  surfaces : Nat
  fr_holds : Bool
  used_device : Option String
  used_encoder : String
  opened_qp : Option Int
deriving DecidableEq, Repr

/-- `zero_hve = {0}` of `hve_init`: all members zeroed. -/
def zero_hve : hve :=
  { sw_pix_fmt := .NONE, hw_device_ctx := false, avctx := none
    buffersrc_ctx := none, filter_graph := none, sw_frame := none
    hw_frame := .noFrame, fr_frame := false, enc_pkt := false
    surfaces := 0, fr_holds := false
    used_device := none, used_encoder := "", opened_qp := none }

/-! ## hve_receive_packet -/

/-- `hve_receive_packet` from `src/hve.c` (lines 432-450).  The backend call
`avcodec_receive_packet` is modelled by its return value `ret`.  The result
pairs the returned packet pointer (`true` = non-NULL, the library's
`&h->enc_pkt`) with the value stored through the `error` out-parameter;
the function assigns `*error` unconditionally before branching. -/
def hve_receive_packet (h : hve) (ret : Int) : Bool × Int :=
  let _ := h.enc_pkt
  if ret = 0 then
    (true, HVE_OK)
  else
    (false, if ret = AVERROR_EAGAIN ∨ ret = AVERROR_EOF then HVE_OK else HVE_ERROR)

/-! ## Resource event log

Every acquisition of an external resource during `hve_init` and every
release (by the code's own error handling or by `hve_close`) is recorded, so
that the cleanup discipline of the construction path can be stated. -/

/-- The resources `hve_init`/`hve_close` acquire and release.  Per-filter
device references taken inside the graph-binding loop of
`init_hardware_scaling` are owned by the graph and freed with it by
`avfilter_graph_free`; they are subsumed under `filterGraph`.  The `ins` and
`outs` `AVFilterInOut` pair is modelled as the single resource
`filterInOut` (the code allocates and frees the two together). -/
inductive Resource where
  | hveStruct
  | deviceCtx
  | codecCtx
  | framesRef
  | framesCtxRef
  | optsDict
  | filterGraph
  | filterInOut
  | srcParams
  | frFrame
  | swFrame
  | hwFrame
deriving DecidableEq, Repr

/-- Acquisition / release events. -/
inductive REvent where
  | acq (r : Resource)
  | rel (r : Resource)
deriving DecidableEq, Repr

/-- Every `Resource` constructor, for the executable balance check. -/
def allResources : List Resource :=
  [.hveStruct, .deviceCtx, .codecCtx, .framesRef, .framesCtxRef, .optsDict,
   .filterGraph, .filterInOut, .srcParams, .frFrame, .swFrame, .hwFrame]

/-- A log is balanced when every resource is released exactly as many times
as it was acquired. -/
def balanced (log : List REvent) : Bool :=
  allResources.all fun r => log.count (REvent.acq r) = log.count (REvent.rel r)

/-- Release events `hve_close` (`src/hve.c` lines 162-178) emits for a given
pipeline state, in the source's order: `av_packet_unref` (no owned
allocation tracked), the three frames, the filter graph,
`avcodec_free_context` (which also drops the context's reference to the
hardware frame pool), the device context, and finally `free(h)`. -/
def hve_close_events (h : hve) : List REvent :=
  (if h.sw_frame.isSome then [REvent.rel .swFrame] else [])
  ++ (if h.fr_frame then [REvent.rel .frFrame] else [])
  ++ (if h.hw_frame ≠ HwFrame.noFrame then [REvent.rel .hwFrame] else [])
  ++ (if h.filter_graph.isSome then [REvent.rel .filterGraph] else [])
  ++ (if h.avctx.isSome then
        [REvent.rel .codecCtx]
        ++ (if (h.avctx.map (·.hw_frames_ctx)).join.isSome
            then [REvent.rel .framesCtxRef] else [])
      else [])
  ++ (if h.hw_device_ctx then [REvent.rel .deviceCtx] else [])
  ++ [REvent.rel .hveStruct]

/-! ## External-call environment for hve_init -/

/-- Outcomes of the external FFmpeg calls made during `hve_init`, one field
per call site, in source order.  `true` means the call succeeds. -/
structure InitEnv where
  malloc_ok : Bool
  hwdevice_ctx_create_ok : Bool
  find_encoder_ok : Bool
  alloc_context_ok : Bool
  hwframe_ctx_alloc_ok : Bool
  hwframe_ctx_init_ok : Bool
  buffer_ref_ok : Bool
  dict_set_qp_ok : Bool
  dict_set_low_power_ok : Bool
  avcodec_open_ok : Bool
  filter_buffer_found : Bool
  filter_buffersink_found : Bool
  inout_alloc_ok : Bool
  graph_alloc_ok : Bool
  create_buffersrc_ok : Bool
  params_alloc_ok : Bool
  params_set_ok : Bool
  create_buffersink_ok : Bool
  graph_parse_ok : Bool
  graph_bind_ok : Bool
  graph_config_ok : Bool
  fr_frame_alloc_ok : Bool
  sw_frame_alloc_ok : Bool
deriving DecidableEq, Repr

/-- The all-successful environment. -/
def envAll : InitEnv :=
  { malloc_ok := true, hwdevice_ctx_create_ok := true, find_encoder_ok := true
    alloc_context_ok := true, hwframe_ctx_alloc_ok := true
    hwframe_ctx_init_ok := true, buffer_ref_ok := true, dict_set_qp_ok := true
    dict_set_low_power_ok := true, avcodec_open_ok := true
    filter_buffer_found := true, filter_buffersink_found := true
    inout_alloc_ok := true, graph_alloc_ok := true, create_buffersrc_ok := true
    params_alloc_ok := true, params_set_ok := true, create_buffersink_ok := true
    graph_parse_ok := true, graph_bind_ok := true, graph_config_ok := true
    fr_frame_alloc_ok := true, sw_frame_alloc_ok := true }

/-! ## init_hwframes_context -/

/-- `init_hwframes_context` from `src/hve.c` (lines 190-237).  Returns the
`int` result, the updated pipeline state and the appended event log.
Mirrors the source's control flow, including the early `return` on a failed
depth introspection (which leaves the freshly allocated `hw_frames_ref`
unreleased) and the unconditional `av_buffer_unref(&hw_frames_ref)` at the
end. -/
def init_hwframes_context (h : hve) (config : hve_config) (env : InitEnv)
    (log : List REvent) : Int × hve × List REvent :=
  if !env.hwframe_ctx_alloc_ok then
    (HVE_ERROR, h, log)
  else
    let log := log ++ [REvent.acq .framesRef]
    let frames_ctx : AVHWFramesContext :=
      { format := .CUDA
        sw_format := .NV12
        width := if config.input_width ≠ 0 then config.input_width else config.width
        height := if config.input_height ≠ 0 then config.input_height else config.height
        initial_pool_size := 20 }
    match hve_pixel_format_depth h.sw_pix_fmt with
    | none => (HVE_ERROR, h, log)
    | some depth =>
      let frames_ctx :=
        if depth = 10 then { frames_ctx with sw_format := .P010LE } else frames_ctx
      if !env.hwframe_ctx_init_ok then
        (HVE_ERROR, h, log ++ [REvent.rel .framesRef])
      else if !env.buffer_ref_ok then
        -- err = AVERROR(ENOMEM); unref; return HVE_ERROR
        (HVE_ERROR, h, log ++ [REvent.rel .framesRef])
      else
        let h := { h with avctx := h.avctx.map fun ctx =>
                    { ctx with hw_frames_ctx := some frames_ctx } }
        (HVE_OK, h, log ++ [REvent.acq .framesCtxRef, REvent.rel .framesRef])

/-! ## init_hardware_scaling -/

/-- `HVE_ERROR_MSG_FILTER` from `src/hve.c` (lines 335-342): frees the
`ins`/`outs` pair (a no-op when they were never allocated) and returns
`HVE_ERROR`. -/
def HVE_ERROR_MSG_FILTER (inoutHeld : Bool) (h : hve) (log : List REvent) :
    Int × hve × List REvent :=
  (HVE_ERROR, h, log ++ if inoutHeld then [REvent.rel .filterInOut] else [])

/-- `init_hardware_scaling` from `src/hve.c` (lines 239-311).  The filter
source is created from the argument string
`"video_size=%dx%d:pix_fmt=%d:time_base=1/%d:pixel_aspect=1/1"` filled with
`config->input_width`, `config->input_height`, `AV_PIX_FMT_VAAPI` and
`config->framerate`; the graph description parsed afterwards is
`"format=vaapi,scale_vaapi=w=%d:h=%d"` with `config->width`,
`config->height`. -/
def init_hardware_scaling (h : hve) (config : hve_config) (env : InitEnv)
    (log : List REvent) : Int × hve × List REvent :=
  if !env.filter_buffer_found then (HVE_ERROR, h, log)
  else if !env.filter_buffersink_found then (HVE_ERROR, h, log)
  else
    -- ins = avfilter_inout_alloc(); outs = avfilter_inout_alloc();
    -- h->filter_graph = avfilter_graph_alloc();
    let inoutHeld := env.inout_alloc_ok
    let log := log ++ if inoutHeld then [REvent.acq .filterInOut] else []
    let h := if env.graph_alloc_ok
             then { h with filter_graph := some emptyFilterGraph } else h
    let log := log ++ if env.graph_alloc_ok then [REvent.acq .filterGraph] else []
    if !env.inout_alloc_ok || !env.graph_alloc_ok then
      HVE_ERROR_MSG_FILTER inoutHeld h log
    else if !env.create_buffersrc_ok then
      HVE_ERROR_MSG_FILTER inoutHeld h log
    else
      let src : BufferSrcParams :=
        { width := config.input_width
          height := config.input_height
          pix_fmt := .VAAPI
          time_base := (1, config.framerate)
          pixel_aspect := (1, 1)
          hw_frames_ctx := none }
      let h := { h with buffersrc_ctx := some src }
      if !env.params_alloc_ok then
        HVE_ERROR_MSG_FILTER inoutHeld h log
      else
        -- par->hw_frames_ctx = h->avctx->hw_frames_ctx;
        -- err = av_buffersrc_parameters_set(h->buffersrc_ctx, par); av_free(par);
        let log := log ++ [REvent.acq .srcParams, REvent.rel .srcParams]
        let h := if env.params_set_ok
                 then { h with buffersrc_ctx := h.buffersrc_ctx.map fun p =>
                        { p with hw_frames_ctx := (h.avctx.map (·.hw_frames_ctx)).join } }
                 else h
        if !env.params_set_ok then
          HVE_ERROR_MSG_FILTER inoutHeld h log
        else if !env.create_buffersink_ok then
          HVE_ERROR_MSG_FILTER inoutHeld h log
        else
          let h := { h with filter_graph := h.filter_graph.map fun g =>
                      { g with buffersink_created := true } }
          if !env.graph_parse_ok then
            HVE_ERROR_MSG_FILTER inoutHeld h log
          else
            let h := { h with filter_graph := h.filter_graph.map fun g =>
                        { g with parsed_format := some .VAAPI
                                 scale_w := some config.width
                                 scale_h := some config.height } }
            if !env.graph_bind_ok then
              HVE_ERROR_MSG_FILTER inoutHeld h log
            else if !env.graph_config_ok then
              HVE_ERROR_MSG_FILTER inoutHeld h log
            else
              let h := { h with filter_graph := h.filter_graph.map fun g =>
                          { g with configured := true } }
              (HVE_OK, h, log ++ [REvent.rel .filterInOut])

/-! ## hve_init -/

/-- Result of `hve_init`: the pipeline handle with the construction event
log, or the `NULL` return with the event log accumulated up to and including
the teardown done by `hve_close_and_return_null`. -/
inductive InitResult where
  | ok (h : hve) (log : List REvent)
  | fail (log : List REvent)
deriving DecidableEq, Repr

/-- Whether an `InitResult` is the `NULL` return. -/
def InitResult.isFail : InitResult → Bool
  | .ok _ _ => false
  | .fail _ => true

/-- `hve_close_and_return_null` from `src/hve.c` (lines 180-188): runs
`hve_close` on the partial state (a no-op for a `NULL` handle) and returns
`NULL`. -/
def hve_close_and_return_null (h : Option hve) (log : List REvent) : InitResult :=
  match h with
  | none => .fail log
  | some h => .fail (log ++ hve_close_events h)

/-- The scaling condition of `hve_init` (`src/hve.c` lines 139-140):
`(config->input_width && config->input_width != config->width) ||
(config->input_height && config->input_height != config->height)`. -/
def scaling_requested (config : hve_config) : Bool :=
  (config.input_width != 0 && config.input_width != config.width) ||
  (config.input_height != 0 && config.input_height != config.height)

/-- Intermediate state of the straight-line body of `hve_init`: either an
early `return hve_close_and_return_null(...)` already taken, or the current
partial pipeline state with the event log. -/
def InitStage := InitResult ⊕ (hve × List REvent)

/-- Sequencing for `InitStage`: propagate an early return, otherwise
continue with the state. -/
def InitStage.seq (x : InitStage) (f : hve → List REvent → InitStage) : InitStage :=
  match x with
  | .inl r => .inl r
  | .inr (h, log) => f h log

/-- Final sequencing step for `InitStage`. -/
def InitStage.finish (x : InitStage) (f : hve → List REvent → InitResult) : InitResult :=
  match x with
  | .inl r => r
  | .inr (h, log) => f h log

/-- The `device` local of `hve_init` (lines 72-73):
`(config->device != NULL && config->device[0] != '\0') ? config->device : NULL`. -/
def device_arg (config : hve_config) : Option String :=
  match config.device with
  | some s => if s ≠ "" then some s else none
  | none => none

/-- The `encoder` local of `hve_init` (line 78):
`(config->encoder != NULL && config->encoder[0] != '\0') ? config->encoder
: "h264_vaapi"`. -/
def encoder_name (config : hve_config) : String :=
  match config.encoder with
  | some s => if s ≠ "" then s else "h264_vaapi"
  | none => "h264_vaapi"

/-- The codec context after the field assignments of `hve_init`
(lines 86-104). -/
def codec_ctx_of (config : hve_config) : AVCodecContext :=
  let ctx := allocContextDefaults
  let ctx := { ctx with width := config.width, height := config.height }
  let ctx := if config.gop_size ≠ 0
             then { ctx with gop_size := if config.gop_size ≠ -1 then config.gop_size else 0 }
             else ctx
  let ctx := { ctx with
    time_base := (1, config.framerate)
    framerate := (config.framerate, 1)
    sample_aspect_ratio := (1, 1)
    pix_fmt := AVPixelFormat.CUDA }
  let ctx := if config.profile ≠ 0 then { ctx with profile := config.profile } else ctx
  let ctx := { ctx with max_b_frames := config.max_b_frames, bit_rate := config.bit_rate }
  if config.compression_level ≠ 0
  then { ctx with compression_level := config.compression_level } else ctx

/-- The software pixel-format resolution of `hve_init` (lines 107-113):
`NV12` for `NULL`/empty, registry lookup otherwise (`AV_PIX_FMT_NONE` =
unknown). -/
def resolve_sw_pix_fmt (config : hve_config) : AVPixelFormat :=
  match config.pixel_format with
  | none => .NV12
  | some s => if s = "" then .NV12 else av_get_pix_fmt s

/-- `hve_init` lines 63-70: `malloc` of `struct hve`, `*h = zero_hve`,
global registration calls (no per-instance state). -/
def hve_init_alloc (env : InitEnv) : InitStage :=
  if !env.malloc_ok then .inl (hve_close_and_return_null none [])
  else .inr (zero_hve, [REvent.acq .hveStruct])

/-- `hve_init` lines 72-76: device-string defaulting and
`av_hwdevice_ctx_create` with `AV_HWDEVICE_TYPE_CUDA`. -/
def hve_init_device (env : InitEnv) (config : hve_config) (h : hve)
    (log : List REvent) : InitStage :=
  let h := { h with used_device := device_arg config }
  if !env.hwdevice_ctx_create_ok then .inl (hve_close_and_return_null (some h) log)
  else .inr ({ h with hw_device_ctx := true }, log ++ [REvent.acq .deviceCtx])

/-- `hve_init` lines 78-104: encoder-name defaulting,
`avcodec_find_encoder_by_name`, `avcodec_alloc_context3` and the codec
context field assignments. -/
def hve_init_codec (env : InitEnv) (config : hve_config) (h : hve)
    (log : List REvent) : InitStage :=
  let h := { h with used_encoder := encoder_name config }
  if !env.find_encoder_ok then .inl (hve_close_and_return_null (some h) log)
  else if !env.alloc_context_ok then .inl (hve_close_and_return_null (some h) log)
  else .inr ({ h with avctx := some (codec_ctx_of config) },
             log ++ [REvent.acq .codecCtx])

/-- `hve_init` lines 106-113: software pixel format resolution. -/
def hve_init_swfmt (config : hve_config) (h : hve) (log : List REvent) :
    InitStage :=
  if resolve_sw_pix_fmt config = .NONE then
    .inl (hve_close_and_return_null (some h) log)
  else .inr ({ h with sw_pix_fmt := resolve_sw_pix_fmt config }, log)

/-- `hve_init` lines 115-116: the `init_hwframes_context` call. -/
def hve_init_hwframes (env : InitEnv) (config : hve_config) (h : hve)
    (log : List REvent) : InitStage :=
  match init_hwframes_context h config env log with
  | (e, h, log) =>
    if e < 0 then .inl (hve_close_and_return_null (some h) log)
    else .inr (h, log)

/-- `hve_init` lines 118-137: the options dictionary (`qp`, `low_power`),
`avcodec_open2` and `av_dict_free`.  On the dictionary-set failure returns
the source does not free a previously allocated `opts`. -/
def hve_init_opts (env : InitEnv) (config : hve_config) (h : hve)
    (log : List REvent) : InitStage :=
  if config.qp != 0 && !env.dict_set_qp_ok then
    .inl (hve_close_and_return_null (some h) log)
  else
  let optsHeld := config.qp != 0
  let log := log ++ if optsHeld then [REvent.acq .optsDict] else []
  if config.low_power != 0 && !env.dict_set_low_power_ok then
    .inl (hve_close_and_return_null (some h) log)
  else
  let log := log ++ if config.low_power != 0 && !optsHeld then [REvent.acq .optsDict] else []
  let optsHeld := optsHeld || config.low_power != 0
  if !env.avcodec_open_ok then
    .inl (hve_close_and_return_null (some h)
      (log ++ if optsHeld then [REvent.rel .optsDict] else []))
  else
  let log := log ++ if optsHeld then [REvent.rel .optsDict] else []
  .inr ({ h with opened_qp := if config.qp ≠ 0 then some config.qp else none }, log)

/-- `hve_init` lines 139-146: the conditional `init_hardware_scaling` call
followed by the `if(h->filter_graph)` filter-frame allocation. -/
def hve_init_scaling (env : InitEnv) (config : hve_config) (h : hve)
    (log : List REvent) : InitStage :=
  let scaled : InitStage :=
    if scaling_requested config then
      match init_hardware_scaling h config env log with
      | (e, h, log) =>
        if e < 0 then Sum.inl (hve_close_and_return_null (some h) log)
        else Sum.inr (h, log)
    else Sum.inr (h, log)
  scaled.seq fun h log =>
  -- from now on h->filter_graph may be used to check if scaling was requested
  if h.filter_graph.isSome && !env.fr_frame_alloc_ok then
    .inl (hve_close_and_return_null (some h) log)
  else
  let h' := if h.filter_graph.isSome then { h with fr_frame := true } else h
  .inr (h', log ++ if h.filter_graph.isSome then [REvent.acq .frFrame] else [])

/-- `hve_init` lines 148-159: the software staging frame and
`av_init_packet`. -/
def hve_init_frames (env : InitEnv) (config : hve_config) (h : hve)
    (log : List REvent) : InitResult :=
  if !env.sw_frame_alloc_ok then
    hve_close_and_return_null (some h) log
  else
  let log := log ++ [REvent.acq .swFrame]
  let sw : SWFrame :=
    { width := if config.input_width ≠ 0 then config.input_width else config.width
      height := if config.input_height ≠ 0 then config.input_height else config.height
      format := h.sw_pix_fmt
      data_set := false }
  let h := { h with sw_frame := some sw }
  -- av_init_packet(&h->enc_pkt); h->enc_pkt.data = NULL; h->enc_pkt.size = 0;
  let h := { h with enc_pkt := true }
  .ok h log

/-- `hve_init` from `src/hve.c` (lines 57-160): the stages above in source
order, each external FFmpeg call's outcome drawn from `env`.  Event-log
bookkeeping mirrors the source's acquisition and release points; every
failure path returns through `hve_close_and_return_null` exactly as the
source does. -/
def hve_init (env : InitEnv) (config : hve_config) : InitResult :=
  ((((((hve_init_alloc env).seq
    (hve_init_device env config)).seq
    (hve_init_codec env config)).seq
    (hve_init_swfmt config)).seq
    (hve_init_hwframes env config)).seq
    (hve_init_opts env config)).seq
    (hve_init_scaling env config) |>.finish
    (hve_init_frames env config)

/-! ## hve_send_frame -/

/-- `struct hve_frame` from `src/hve.h`: plane pointers and strides.  The
pipeline only copies these descriptors, never the pixel data. -/
structure hve_frame where
  data : List Nat
  linesize : List Int
deriving DecidableEq, Repr

/-- Outcomes of the external FFmpeg calls made during `hve_send_frame`, one
field per call site.  `sink_pulls` lists, for each frame the buffersink
yields, the `avcodec_send_frame` return for that frame; `sink_final` is the
`av_buffersink_get_frame` return that ends the pull loop. -/
structure SendEnv where
  hw_frame_alloc_ok : Bool
  get_buffer_ok : Bool
  hw_frames_ctx_ok : Bool
  transfer_ok : Bool
  buffersrc_add_eof_ok : Bool
  buffersrc_add_frame_ok : Bool
  sink_pulls : List Int
  sink_final : Int
  encode_send_ret : Int
  flush_send_ret : Int
deriving DecidableEq, Repr

/-- Trace of the operations `hve_send_frame` performs, in call order. -/
inductive Event where
  | freeHwFrame
  | markFilterEOF
  | flushEncoder
  | allocHwFrame
  | getBuffer
  | transferData
  | pushToFilter
  | pullFromSink
  | sendScaled
  | unrefFrFrame
  | encodeDirect
deriving DecidableEq, Repr

/-- `av_frame_free(&h->hw_frame)`: drops the frame and, when it held one,
its hardware surface. -/
def free_hw_frame (h : hve) : hve :=
  { h with hw_frame := .noFrame
           surfaces := h.surfaces - (if h.hw_frame = HwFrame.withSurface then 1 else 0) }

/-- `hw_upload` from `src/hve.c` (lines 377-392): allocate an `AVFrame`
shell, draw a surface from the encoder's hardware frame pool, check the
frame's pool-membership handle, and transfer the staged software data. -/
def hw_upload (h : hve) (env : SendEnv) (tr : List Event) : Int × hve × List Event :=
  let tr := tr ++ [Event.allocHwFrame]
  if !env.hw_frame_alloc_ok then (HVE_ERROR, h, tr)
  else
  let h := { h with hw_frame := .allocated }
  let tr := tr ++ [Event.getBuffer]
  if !env.get_buffer_ok then (HVE_ERROR, h, tr)
  else
  let h := { h with hw_frame := .withSurface, surfaces := h.surfaces + 1 }
  if !env.hw_frames_ctx_ok then (HVE_ERROR, h, tr)
  else
  let tr := tr ++ [Event.transferData]
  if !env.transfer_ok then (HVE_ERROR, h, tr)
  else (HVE_OK, h, tr)

/-- `encode` from `src/hve.c` (lines 419-425): submit the uploaded hardware
frame `h->hw_frame` directly to the encoder. -/
def encode (h : hve) (env : SendEnv) (tr : List Event) : Int × hve × List Event :=
  let tr := tr ++ [Event.encodeDirect]
  if env.encode_send_ret < 0 then (HVE_ERROR, h, tr) else (HVE_OK, h, tr)

/-- The `while((err = av_buffersink_get_frame(...)) >= 0)` loop of
`scale_encode` (`src/hve.c` lines 401-416) followed by the terminal status
checks.  Each successful pull fills `h->fr_frame` with a rescaled surface,
submits it to the encoder and unrefs it. -/
def scale_encode_loop (h : hve) (pulls : List Int) (finalRet : Int)
    (tr : List Event) : Int × hve × List Event :=
  match pulls with
  | [] =>
    if finalRet = AVERROR_EAGAIN ∨ finalRet = AVERROR_EOF then (HVE_OK, h, tr)
    else if finalRet < 0 then (HVE_ERROR, h, tr)
    else (HVE_OK, h, tr)
  | r :: rest =>
    let h := { h with fr_holds := true, surfaces := h.surfaces + 1 }
    let tr := tr ++ [Event.pullFromSink, Event.sendScaled, Event.unrefFrFrame]
    let h := { h with fr_holds := false, surfaces := h.surfaces - 1 }
    if r < 0 then (HVE_ERROR, h, tr)
    else scale_encode_loop h rest finalRet tr

/-- `scale_encode` from `src/hve.c` (lines 394-417): push the uploaded
surface into the graph's source node (`AV_BUFFERSRC_FLAG_KEEP_REF`, so
`h->hw_frame` keeps its surface), then drain the sink. -/
def scale_encode (h : hve) (env : SendEnv) (tr : List Event) : Int × hve × List Event :=
  let tr := tr ++ [Event.pushToFilter]
  if !env.buffersrc_add_frame_ok then (HVE_ERROR, h, tr)
  else scale_encode_loop h env.sink_pulls env.sink_final tr

/-- The descriptor `memcpy` of `hve_send_frame` (`src/hve.c` lines 364-366):
copies the caller's plane-pointer and stride arrays into the persistent
software staging frame (a few ints and pointers, not the pixel data). -/
def stage_frame_descriptors (h : hve) : hve :=
  { h with sw_frame := h.sw_frame.map fun s => { s with data_set := true } }

/-- `hve_send_frame` from `src/hve.c` (lines 344-375).  The hardware frame
held from the previous call is freed first; a `NULL` frame marks
end-of-stream on the scaling graph (failure there is only logged —
`env.buffersrc_add_eof_ok` does not influence the result) and flushes the
encoder; a real frame is staged, uploaded and either scaled-and-encoded or
encoded directly depending on `h->filter_graph`. -/
def hve_send_frame (h : hve) (env : SendEnv) (frame : Option hve_frame) :
    Int × hve × List Event :=
  let h := free_hw_frame h
  let tr : List Event := [Event.freeHwFrame]
  match frame with
  | none =>
    -- if(h->filter_graph) mark EOF; a failed mark only prints to stderr
    let _ := env.buffersrc_add_eof_ok
    let tr := tr ++ if h.filter_graph.isSome then [Event.markFilterEOF] else []
    let tr := tr ++ [Event.flushEncoder]
    if env.flush_send_ret < 0 then (HVE_ERROR, h, tr) else (HVE_OK, h, tr)
  | some _ =>
    let h := stage_frame_descriptors h
    match hw_upload h env tr with
    | (e, h, tr) =>
      if e < 0 then (HVE_ERROR, h, tr)
      else if h.filter_graph.isSome then scale_encode h env tr
      else encode h env tr

/-! ## Derived characterisation of a successful hve_init -/

/-- The hardware frame-pool description a successful `init_hwframes_context`
installs for a given configuration and resolved software format (derived
from `init_hwframes_context`). -/
def expected_frames_ctx (config : hve_config) (sw_fmt : AVPixelFormat) :
    AVHWFramesContext :=
  { format := .CUDA
    sw_format := if hve_pixel_format_depth sw_fmt = some 10 then .P010LE else .NV12
    width := if config.input_width ≠ 0 then config.input_width else config.width
    height := if config.input_height ≠ 0 then config.input_height else config.height
    initial_pool_size := 20 }

/-- The pipeline state a successful `hve_init` produces, as a function of
the configuration alone (derived: success forces every environment branch). -/
def initExpected (config : hve_config) : hve :=
  let sw_fmt := resolve_sw_pix_fmt config
  let frames_ctx := expected_frames_ctx config sw_fmt
  { sw_pix_fmt := sw_fmt
    hw_device_ctx := true
    avctx := some { codec_ctx_of config with hw_frames_ctx := some frames_ctx }
    buffersrc_ctx :=
      if scaling_requested config then
        some { width := config.input_width, height := config.input_height
               pix_fmt := .VAAPI, time_base := (1, config.framerate)
               pixel_aspect := (1, 1), hw_frames_ctx := some frames_ctx }
      else none
    filter_graph :=
      if scaling_requested config then
        some { buffersink_created := true, parsed_format := some .VAAPI
               scale_w := some config.width, scale_h := some config.height
               configured := true }
      else none
    sw_frame := some
      { width := if config.input_width ≠ 0 then config.input_width else config.width
        height := if config.input_height ≠ 0 then config.input_height else config.height
        format := sw_fmt, data_set := false }
    hw_frame := .noFrame
    fr_frame := scaling_requested config
    enc_pkt := true
    surfaces := 0
    fr_holds := false
    used_device := device_arg config
    used_encoder := encoder_name config
    opened_qp := if config.qp ≠ 0 then some config.qp else none }

/-- The source node parameters a successful `init_hardware_scaling`
installs (derived). -/
def expected_src (config : hve_config) (h : hve) : BufferSrcParams :=
  { width := config.input_width, height := config.input_height
    pix_fmt := .VAAPI, time_base := (1, config.framerate)
    pixel_aspect := (1, 1)
    hw_frames_ctx := (h.avctx.map (·.hw_frames_ctx)).join }

/-- The graph state a successful `init_hardware_scaling` installs
(derived). -/
def expected_graph (config : hve_config) : AVFilterGraph :=
  { buffersink_created := true, parsed_format := some .VAAPI
    scale_w := some config.width, scale_h := some config.height
    configured := true }

/-! ## Spec-modelled backend behaviour, invariants and example values -/

/-- The steady-state surface accounting of the pipeline between
`hve_send_frame` calls: the filter staging frame holds no surface, and the
pipeline owns a hardware surface exactly when `h->hw_frame` holds one. -/
def surface_invariant (h : hve) : Prop :=
  h.fr_holds = false ∧
  h.surfaces = (if h.hw_frame = HwFrame.withSurface then 1 else 0)

instance (h : hve) : Decidable (surface_invariant h) := by
  unfold surface_invariant
  infer_instance

/-- Modelled from the spec: the backend's flush entry point is idempotent —
a repeated flush signal to an already-flushing encoder session succeeds
("repeated NULL submissions are tolerated pass-throughs to the backend's own
idempotent flush").  The `avcodec_send_frame(NULL)` implementation is
outside `src/`. -/
def backend_flush_idempotent (env : SendEnv) : Prop :=
  env.flush_send_ret = 0

/-- Rate-control modes of a backend encoder session. -/
inductive RateControlMode where
  | vbr
  | cqp
deriving DecidableEq, Repr

/-- Modelled from the spec: the rate-control mode selection performed by the
backend encoder session (FFmpeg's encoder, outside `src/`) — "Set non zero
bit_rate for average average bitrate and VBR mode", "If both bit_rate and qp
are zero then CQP with default qp is used. If both are non-zero VBR mode
will be used": the session operates in average-bitrate (VBR) mode exactly
when the configured bit_rate is non-zero, otherwise in fixed-quantizer
(CQP) mode. -/
def session_rate_control (bit_rate : Int) : RateControlMode :=
  if bit_rate ≠ 0 then .vbr else .cqp

/-- Modelled from the spec: the quantizer option passed at open affects the
session only in fixed-quantizer mode ("quantizer parameter is not applied"
in average-bitrate mode). -/
def session_qp_applied (bit_rate : Int) (qp_opt : Option Int) : Bool :=
  decide (session_rate_control bit_rate = RateControlMode.cqp) && qp_opt.isSome

/-- A `hve_send_frame` environment in which the Upload Stage's backend
calls all succeed. -/
def upload_succeeds (env : SendEnv) : Prop :=
  env.hw_frame_alloc_ok = true ∧ env.get_buffer_ok = true ∧
  env.hw_frames_ctx_ok = true ∧ env.transfer_ok = true

instance (env : SendEnv) : Decidable (upload_succeeds env) := by
  unfold upload_succeeds
  infer_instance

/-! ## Concrete example values for evidence and witnesses -/

/-- A plain 1280x720 30 fps configuration with every optional field left at
its default. -/
def cfgBaseExample : hve_config :=
  { width := 1280, height := 720, input_width := 0, input_height := 0
    framerate := 30, device := none, encoder := none, pixel_format := none
    profile := 0, max_b_frames := 0, bit_rate := 0, qp := 0, gop_size := 0
    compression_level := 0, low_power := 0 }

/-- The base configuration with hardware scaling requested
(1920x1080 input downscaled to 1280x720). -/
def cfgScaleExample : hve_config :=
  { cfgBaseExample with input_width := 1920, input_height := 1080 }

/-- The base configuration with both rate-control fields set. -/
def cfgRateExample : hve_config :=
  { cfgBaseExample with bit_rate := 2000000, qp := 25 }

/-- The base configuration with the 10-bit `"p010le"` upload format. -/
def cfgTenBitExample : hve_config :=
  { cfgBaseExample with pixel_format := some "p010le" }

/-- The construction event log of a fully successful `hve_init` on a
configuration without scaling and without dictionary options. -/
def initLogBaseExample : List REvent :=
  [.acq .hveStruct, .acq .deviceCtx, .acq .codecCtx, .acq .framesRef,
   .acq .framesCtxRef, .rel .framesRef, .acq .swFrame]

/-- The construction event log of a fully successful `hve_init` on
`cfgRateExample`. -/
def initLogRateExample : List REvent :=
  [.acq .hveStruct, .acq .deviceCtx, .acq .codecCtx, .acq .framesRef,
   .acq .framesCtxRef, .rel .framesRef, .acq .optsDict, .rel .optsDict,
   .acq .swFrame]

/-- The base configuration with input dimensions set equal to the output
dimensions. -/
def cfgEqDimsExample : hve_config :=
  { cfgBaseExample with input_width := 1280, input_height := 720 }

/-- The base configuration with the hardware pixel-format name `"cuda"` as
the software upload format: `av_get_pix_fmt` accepts it, but its descriptor
has no components, so the depth introspection fails. -/
def cfgCudaExample : hve_config :=
  { cfgBaseExample with pixel_format := some "cuda" }

/-- The construction event log of a fully successful `hve_init` on the
scaling configuration. -/
def initLogScaleExample : List REvent :=
  [.acq .hveStruct, .acq .deviceCtx, .acq .codecCtx, .acq .framesRef,
   .acq .framesCtxRef, .rel .framesRef, .acq .filterInOut, .acq .filterGraph,
   .acq .srcParams, .rel .srcParams, .rel .filterInOut, .acq .frFrame,
   .acq .swFrame]

/-- The construction event log of `hve_init` on `cfgCudaExample`: the frame
pool reference is acquired but never released before the teardown. -/
def initLogCudaExample : List REvent :=
  [.acq .hveStruct, .acq .deviceCtx, .acq .codecCtx, .acq .framesRef,
   .rel .codecCtx, .rel .deviceCtx, .rel .hveStruct]

/-- The hardware frame pool the scaling example's encoder is configured
with. -/
def fctxScaleExample : AVHWFramesContext :=
  { format := .CUDA, sw_format := .NV12, width := 1920, height := 1080
    initial_pool_size := 20 }

/-- The codec context of the scaling example's pipeline. -/
def ctxScaleExample : AVCodecContext :=
  { codec_ctx_of cfgScaleExample with hw_frames_ctx := some fctxScaleExample }

/-- The scaling source node of the scaling example's pipeline. -/
def srcScaleExample : BufferSrcParams :=
  { width := 1920, height := 1080, pix_fmt := .VAAPI, time_base := (1, 30)
    pixel_aspect := (1, 1), hw_frames_ctx := some fctxScaleExample }

/-- A pipeline state with a scaling graph, as built by a fully successful
`hve_init` on the scaling configuration. -/
def hveFlushExample : hve := initExpected cfgScaleExample

/-- A send environment in which marking end-of-stream on the scaling graph
fails but every other backend call succeeds. -/
def sendEnvEofFailExample : SendEnv :=
  { hw_frame_alloc_ok := true, get_buffer_ok := true, hw_frames_ctx_ok := true
    transfer_ok := true, buffersrc_add_eof_ok := false
    buffersrc_add_frame_ok := true, sink_pulls := [0]
    sink_final := AVERROR_EAGAIN, encode_send_ret := 0, flush_send_ret := 0 }

/-! ## Stage lemmas and claim theorems -/

theorem close_and_return_null_isFail (o : Option hve) (l : List REvent) :
    (hve_close_and_return_null o l).isFail = true := by
  cases o <;> simp [hve_close_and_return_null, InitResult.isFail]

theorem hve_init_alloc_cases (env : InitEnv) :
    (∃ r, hve_init_alloc env = .inl r ∧ r.isFail = true) ∨
    hve_init_alloc env = .inr (zero_hve, [REvent.acq .hveStruct]) := by
  unfold hve_init_alloc
  split
  · exact Or.inl ⟨_, rfl, close_and_return_null_isFail _ _⟩
  · exact Or.inr rfl

theorem hve_init_device_cases (env : InitEnv) (config : hve_config) (h : hve)
    (log : List REvent) :
    (∃ r, hve_init_device env config h log = .inl r ∧ r.isFail = true) ∨
    hve_init_device env config h log =
      .inr ({ h with used_device := device_arg config, hw_device_ctx := true },
            log ++ [REvent.acq .deviceCtx]) := by
  unfold hve_init_device
  split
  · exact Or.inl ⟨_, rfl, close_and_return_null_isFail _ _⟩
  · exact Or.inr rfl

theorem hve_init_codec_cases (env : InitEnv) (config : hve_config) (h : hve)
    (log : List REvent) :
    (∃ r, hve_init_codec env config h log = .inl r ∧ r.isFail = true) ∨
    hve_init_codec env config h log =
      .inr ({ h with used_encoder := encoder_name config
                     avctx := some (codec_ctx_of config) },
            log ++ [REvent.acq .codecCtx]) := by
  unfold hve_init_codec
  split
  · exact Or.inl ⟨_, rfl, close_and_return_null_isFail _ _⟩
  · split
    · exact Or.inl ⟨_, rfl, close_and_return_null_isFail _ _⟩
    · exact Or.inr rfl

theorem hve_init_swfmt_cases (config : hve_config) (h : hve)
    (log : List REvent) :
    (∃ r, hve_init_swfmt config h log = .inl r ∧ r.isFail = true) ∨
    (resolve_sw_pix_fmt config ≠ .NONE ∧
     hve_init_swfmt config h log =
       .inr ({ h with sw_pix_fmt := resolve_sw_pix_fmt config }, log)) := by
  unfold hve_init_swfmt
  split
  · exact Or.inl ⟨_, rfl, close_and_return_null_isFail _ _⟩
  · next hne => exact Or.inr ⟨hne, rfl⟩

theorem init_hwframes_context_cases (h : hve) (config : hve_config)
    (env : InitEnv) (log : List REvent) :
    (∃ log2, init_hwframes_context h config env log = (HVE_ERROR, h, log2)) ∨
    (∃ d, hve_pixel_format_depth h.sw_pix_fmt = some d ∧
      init_hwframes_context h config env log =
        (HVE_OK,
         { h with avctx := h.avctx.map fun ctx =>
             { ctx with hw_frames_ctx := some (expected_frames_ctx config h.sw_pix_fmt) } },
         (log ++ [REvent.acq .framesRef])
           ++ [REvent.acq .framesCtxRef, REvent.rel .framesRef])) := by
  by_cases h1 : env.hwframe_ctx_alloc_ok
  · cases hd : hve_pixel_format_depth h.sw_pix_fmt with
    | none =>
      exact Or.inl ⟨log ++ [REvent.acq .framesRef],
        by simp [init_hwframes_context, h1, hd]⟩
    | some d =>
      by_cases h2 : env.hwframe_ctx_init_ok
      · by_cases h3 : env.buffer_ref_ok
        · refine Or.inr ⟨d, rfl, ?_⟩
          by_cases hd10 : d = 10 <;>
            simp [init_hwframes_context, h1, hd, h2, h3, hd10,
                  expected_frames_ctx]
        · exact Or.inl ⟨log ++ [REvent.acq .framesRef, REvent.rel .framesRef],
            by simp [init_hwframes_context, h1, hd, h2, h3]⟩
      · exact Or.inl ⟨log ++ [REvent.acq .framesRef, REvent.rel .framesRef],
          by simp [init_hwframes_context, h1, hd, h2]⟩
  · exact Or.inl ⟨log, by simp [init_hwframes_context, h1]⟩

theorem hve_init_hwframes_cases (env : InitEnv) (config : hve_config)
    (h : hve) (log : List REvent) :
    (∃ r, hve_init_hwframes env config h log = .inl r ∧ r.isFail = true) ∨
    (∃ d, hve_pixel_format_depth h.sw_pix_fmt = some d ∧
      hve_init_hwframes env config h log =
        .inr ({ h with avctx := h.avctx.map fun ctx =>
                 { ctx with hw_frames_ctx := some (expected_frames_ctx config h.sw_pix_fmt) } },
              (log ++ [REvent.acq .framesRef])
                ++ [REvent.acq .framesCtxRef, REvent.rel .framesRef])) := by
  rcases init_hwframes_context_cases h config env log with ⟨log2, heq⟩ | ⟨d, hd, heq⟩
  · refine Or.inl ⟨_, ?_, close_and_return_null_isFail (some h) log2⟩
    unfold hve_init_hwframes
    rw [heq]
    norm_num [HVE_ERROR]
  · refine Or.inr ⟨d, hd, ?_⟩
    unfold hve_init_hwframes
    rw [heq]
    norm_num [HVE_OK]

theorem hve_init_opts_cases (env : InitEnv) (config : hve_config) (h : hve)
    (log : List REvent) :
    (∃ r, hve_init_opts env config h log = .inl r ∧ r.isFail = true) ∨
    (∃ log2, hve_init_opts env config h log =
       .inr ({ h with opened_qp := if config.qp ≠ 0 then some config.qp else none },
             log2)) := by
  unfold hve_init_opts
  split
  · exact Or.inl ⟨_, rfl, close_and_return_null_isFail _ _⟩
  · split
    · exact Or.inl ⟨_, rfl, close_and_return_null_isFail _ _⟩
    · split
      · exact Or.inl ⟨_, rfl, close_and_return_null_isFail _ _⟩
      · exact Or.inr ⟨_, rfl⟩

theorem init_hardware_scaling_cases (h : hve) (config : hve_config)
    (env : InitEnv) (log : List REvent) :
    (∃ h2 log2, init_hardware_scaling h config env log = (HVE_ERROR, h2, log2)) ∨
    (∃ log2, init_hardware_scaling h config env log =
       (HVE_OK,
        { h with buffersrc_ctx := some (expected_src config h)
                 filter_graph := some (expected_graph config) },
        log2)) := by
  by_cases b1 : env.filter_buffer_found
  case neg => exact Or.inl ⟨(init_hardware_scaling h config env log).2.1,
      (init_hardware_scaling h config env log).2.2, by simp [init_hardware_scaling, b1]⟩
  by_cases b2 : env.filter_buffersink_found
  case neg => exact Or.inl ⟨(init_hardware_scaling h config env log).2.1,
      (init_hardware_scaling h config env log).2.2, by simp [init_hardware_scaling, b1, b2]⟩
  by_cases b3 : env.inout_alloc_ok
  case neg =>
    exact Or.inl ⟨(init_hardware_scaling h config env log).2.1,
      (init_hardware_scaling h config env log).2.2,
      by simp [init_hardware_scaling, HVE_ERROR_MSG_FILTER, b1, b2, b3]⟩
  by_cases b4 : env.graph_alloc_ok
  case neg =>
    exact Or.inl ⟨(init_hardware_scaling h config env log).2.1,
      (init_hardware_scaling h config env log).2.2,
      by simp [init_hardware_scaling, HVE_ERROR_MSG_FILTER, b1, b2, b3, b4]⟩
  by_cases b5 : env.create_buffersrc_ok
  case neg =>
    exact Or.inl ⟨(init_hardware_scaling h config env log).2.1,
      (init_hardware_scaling h config env log).2.2,
      by simp [init_hardware_scaling, HVE_ERROR_MSG_FILTER, b1, b2, b3, b4, b5]⟩
  by_cases b6 : env.params_alloc_ok
  case neg =>
    exact Or.inl ⟨(init_hardware_scaling h config env log).2.1,
      (init_hardware_scaling h config env log).2.2, by
      simp [init_hardware_scaling, HVE_ERROR_MSG_FILTER, b1, b2, b3, b4, b5, b6]⟩
  by_cases b7 : env.params_set_ok
  case neg =>
    exact Or.inl ⟨(init_hardware_scaling h config env log).2.1,
      (init_hardware_scaling h config env log).2.2, by
      simp [init_hardware_scaling, HVE_ERROR_MSG_FILTER, b1, b2, b3, b4, b5, b6, b7]⟩
  by_cases b8 : env.create_buffersink_ok
  case neg =>
    exact Or.inl ⟨(init_hardware_scaling h config env log).2.1,
      (init_hardware_scaling h config env log).2.2, by
      simp [init_hardware_scaling, HVE_ERROR_MSG_FILTER, b1, b2, b3, b4, b5, b6, b7, b8]⟩
  by_cases b9 : env.graph_parse_ok
  case neg =>
    exact Or.inl ⟨(init_hardware_scaling h config env log).2.1,
      (init_hardware_scaling h config env log).2.2, by
      simp [init_hardware_scaling, HVE_ERROR_MSG_FILTER, b1, b2, b3, b4, b5, b6, b7, b8, b9]⟩
  by_cases b10 : env.graph_bind_ok
  case neg =>
    exact Or.inl ⟨(init_hardware_scaling h config env log).2.1,
      (init_hardware_scaling h config env log).2.2, by
      simp [init_hardware_scaling, HVE_ERROR_MSG_FILTER, b1, b2, b3, b4, b5, b6, b7, b8, b9, b10]⟩
  by_cases b11 : env.graph_config_ok
  case neg =>
    exact Or.inl ⟨(init_hardware_scaling h config env log).2.1,
      (init_hardware_scaling h config env log).2.2, by
      simp [init_hardware_scaling, HVE_ERROR_MSG_FILTER,
            b1, b2, b3, b4, b5, b6, b7, b8, b9, b10, b11]⟩
  refine Or.inr ⟨(init_hardware_scaling h config env log).2.2, ?_⟩
  simp [init_hardware_scaling, expected_src, expected_graph, emptyFilterGraph,
        b1, b2, b3, b4, b5, b6, b7, b8, b9, b10, b11]

theorem hve_init_scaling_cases (env : InitEnv) (config : hve_config)
    (h : hve) (log : List REvent) :
    (∃ r, hve_init_scaling env config h log = .inl r ∧ r.isFail = true) ∨
    (∃ log2, hve_init_scaling env config h log = .inr
       ((if scaling_requested config then
           { h with buffersrc_ctx := some (expected_src config h)
                    filter_graph := some (expected_graph config)
                    fr_frame := true }
         else if h.filter_graph.isSome then { h with fr_frame := true } else h),
        log2)) := by
  by_cases hsr : scaling_requested config
  · rcases init_hardware_scaling_cases h config env log with ⟨h2, log2, heq⟩ | ⟨log2, heq⟩
    · refine Or.inl ?_
      unfold hve_init_scaling
      rw [hsr, if_pos rfl, heq]
      norm_num [HVE_ERROR, InitStage.seq]
      exact ⟨_, rfl, close_and_return_null_isFail _ _⟩
    · by_cases hfr : env.fr_frame_alloc_ok
      · refine Or.inr ⟨log2 ++ [REvent.acq .frFrame], ?_⟩
        unfold hve_init_scaling
        rw [hsr, if_pos rfl, heq]
        norm_num [HVE_OK, InitStage.seq, hfr, hsr]
      · refine Or.inl ?_
        unfold hve_init_scaling
        rw [hsr, if_pos rfl, heq]
        norm_num [HVE_OK, InitStage.seq, hfr]
        exact ⟨_, rfl, close_and_return_null_isFail _ _⟩
  · by_cases hfg : h.filter_graph.isSome
    · by_cases hfr : env.fr_frame_alloc_ok
      · refine Or.inr ⟨log ++ [REvent.acq .frFrame], ?_⟩
        unfold hve_init_scaling
        rw [if_neg (by simp [hsr])]
        norm_num [InitStage.seq, hsr, hfg, hfr]
      · refine Or.inl ?_
        unfold hve_init_scaling
        rw [if_neg (by simp [hsr])]
        norm_num [InitStage.seq, hsr, hfg, hfr]
        exact ⟨_, rfl, close_and_return_null_isFail _ _⟩
    · refine Or.inr ⟨log, ?_⟩
      unfold hve_init_scaling
      rw [if_neg (by simp [hsr])]
      norm_num [InitStage.seq, hsr, hfg]

theorem hve_init_frames_cases (env : InitEnv) (config : hve_config)
    (h : hve) (log : List REvent) :
    (hve_init_frames env config h log).isFail = true ∨
    hve_init_frames env config h log =
      .ok { h with
              sw_frame := some
                { width := if config.input_width ≠ 0 then config.input_width
                           else config.width
                  height := if config.input_height ≠ 0 then config.input_height
                            else config.height
                  format := h.sw_pix_fmt, data_set := false }
              enc_pkt := true }
          (log ++ [REvent.acq .swFrame]) := by
  by_cases hsw : env.sw_frame_alloc_ok
  · exact Or.inr (by simp [hve_init_frames, hsw])
  · refine Or.inl ?_
    simp only [hve_init_frames, hsw]
    norm_num [close_and_return_null_isFail]

/-- A successful `hve_init` resolves the software pixel format and yields
exactly the state `initExpected`. -/
theorem hve_init_ok_shape (env : InitEnv) (config : hve_config) (h : hve)
    (log : List REvent) (hok : hve_init env config = .ok h log) :
    resolve_sw_pix_fmt config ≠ .NONE ∧ h = initExpected config := by
  unfold hve_init at hok
  rcases hve_init_alloc_cases env with ⟨r, hr, hfail⟩ | hA
  · rw [hr] at hok
    simp only [InitStage.seq, InitStage.finish] at hok
    rw [hok] at hfail
    simp [InitResult.isFail] at hfail
  rw [hA] at hok
  simp only [InitStage.seq] at hok
  rcases hve_init_device_cases env config _ _ with ⟨r, hr, hfail⟩ | hB
  · rw [hr] at hok
    simp only [InitStage.seq, InitStage.finish] at hok
    rw [hok] at hfail
    simp [InitResult.isFail] at hfail
  rw [hB] at hok
  simp only [InitStage.seq] at hok
  rcases hve_init_codec_cases env config _ _ with ⟨r, hr, hfail⟩ | hC
  · rw [hr] at hok
    simp only [InitStage.seq, InitStage.finish] at hok
    rw [hok] at hfail
    simp [InitResult.isFail] at hfail
  rw [hC] at hok
  simp only [InitStage.seq] at hok
  rcases hve_init_swfmt_cases config _ _ with ⟨r, hr, hfail⟩ | ⟨hres, hD⟩
  · rw [hr] at hok
    simp only [InitStage.seq, InitStage.finish] at hok
    rw [hok] at hfail
    simp [InitResult.isFail] at hfail
  rw [hD] at hok
  simp only [InitStage.seq] at hok
  rcases hve_init_hwframes_cases env config _ _ with ⟨r, hr, hfail⟩ | ⟨d, hd, hE⟩
  · rw [hr] at hok
    simp only [InitStage.seq, InitStage.finish] at hok
    rw [hok] at hfail
    simp [InitResult.isFail] at hfail
  rw [hE] at hok
  simp only [InitStage.seq] at hok
  rcases hve_init_opts_cases env config _ _ with ⟨r, hr, hfail⟩ | ⟨log6, hF⟩
  · rw [hr] at hok
    simp only [InitStage.seq, InitStage.finish] at hok
    rw [hok] at hfail
    simp [InitResult.isFail] at hfail
  rw [hF] at hok
  simp only [InitStage.seq] at hok
  rcases hve_init_scaling_cases env config _ _ with ⟨r, hr, hfail⟩ | ⟨log7, hG⟩
  · rw [hr] at hok
    simp only [InitStage.seq, InitStage.finish] at hok
    rw [hok] at hfail
    simp [InitResult.isFail] at hfail
  rw [hG] at hok
  simp only [InitStage.finish] at hok
  rcases hve_init_frames_cases env config _ _ with hfail | hH
  · rw [hok] at hfail
    simp [InitResult.isFail] at hfail
  rw [hH] at hok
  refine ⟨hres, ?_⟩
  have hinj := hok
  injection hinj with hh hl
  subst hh
  by_cases hsr : scaling_requested config <;>
    simp [initExpected, expected_src, expected_graph, hsr, zero_hve]

/-! ## Claim theorems -/

/-- C1: for every call to `hve_receive_packet` on a valid pipeline there are
exactly three mutually exclusive outcomes — backend yields a packet
(`ret = 0`): non-NULL packet and `*error = HVE_OK`; backend reports
need-more-input (`AVERROR(EAGAIN)`) or end-of-stream (`AVERROR_EOF`): NULL
and `*error = HVE_OK`; any other backend status: NULL and
`*error = HVE_ERROR`.  `*error` is assigned on every call. -/
theorem hve_receive_packet_tristate (h : hve) (ret : Int) :
    (ret = 0 → hve_receive_packet h ret = (true, HVE_OK)) ∧
    ((ret = AVERROR_EAGAIN ∨ ret = AVERROR_EOF) →
      hve_receive_packet h ret = (false, HVE_OK)) ∧
    ((ret ≠ 0 ∧ ret ≠ AVERROR_EAGAIN ∧ ret ≠ AVERROR_EOF) →
      hve_receive_packet h ret = (false, HVE_ERROR)) ∧
    ((hve_receive_packet h ret).2 = HVE_OK ∨
      (hve_receive_packet h ret).2 = HVE_ERROR) := by
  refine ⟨?_, ?_, ?_, ?_⟩
  · intro h0
    simp [hve_receive_packet, h0]
  · rintro (he | he) <;>
      simp [hve_receive_packet, he, AVERROR_EAGAIN, AVERROR_EOF]
  · rintro ⟨h0, he, hf⟩
    simp [hve_receive_packet, h0, he, hf]
  · by_cases h0 : ret = 0
    · simp [hve_receive_packet, h0]
    · by_cases he : ret = AVERROR_EAGAIN ∨ ret = AVERROR_EOF <;>
        simp [hve_receive_packet, h0, he]

/-- Witness for C1 at the concrete need-more-input status: `ret = -11`
(`AVERROR(EAGAIN)`) gives a NULL packet with `HVE_OK`. -/
theorem hve_receive_packet_tristate_witness :
    hve_receive_packet zero_hve (-11) = (false, HVE_OK) :=
  (hve_receive_packet_tristate zero_hve (-11)).2.1 (Or.inl (by decide))

/-- C5: for every open pipeline, `hve_send_frame(NULL)` first signals
end-of-stream to the scaling graph when one exists and then flushes the
encoder; it returns `HVE_ERROR` if and only if the encoder flush call itself
fails (a failed end-of-stream mark on the graph alone — any value of
`buffersrc_add_eof_ok` — never produces an error). -/
theorem hve_send_frame_flush_order_and_error (h : hve) (env : SendEnv) :
    ((hve_send_frame h env none).1 = HVE_ERROR ↔ env.flush_send_ret < 0) ∧
    (h.filter_graph.isSome →
      (hve_send_frame h env none).2.2 =
        [Event.freeHwFrame, Event.markFilterEOF, Event.flushEncoder]) ∧
    (h.filter_graph = none →
      (hve_send_frame h env none).2.2 =
        [Event.freeHwFrame, Event.flushEncoder]) := by
  refine ⟨?_, ?_, ?_⟩
  · by_cases hf : env.flush_send_ret < 0 <;>
      simp [hve_send_frame, hf, HVE_ERROR, HVE_OK]
  · intro hg
    by_cases hf : env.flush_send_ret < 0 <;>
      simp [hve_send_frame, free_hw_frame, hf, hg]
  · intro hg
    by_cases hf : env.flush_send_ret < 0 <;>
      simp [hve_send_frame, free_hw_frame, hf, hg]

/-- Witness for C5: a pipeline with a scaling graph whose end-of-stream mark
fails but whose encoder flush succeeds still returns `HVE_OK`, with the
graph signalled before the encoder. -/
theorem hve_send_frame_flush_order_and_error_witness :
    ¬((hve_send_frame hveFlushExample sendEnvEofFailExample none).1 = HVE_ERROR) ∧
    (hve_send_frame hveFlushExample sendEnvEofFailExample none).2.2 =
      [Event.freeHwFrame, Event.markFilterEOF, Event.flushEncoder] := by
  have hmain := hve_send_frame_flush_order_and_error hveFlushExample sendEnvEofFailExample
  exact ⟨fun hc => by have := hmain.1.mp hc; norm_num [sendEnvEofFailExample] at this,
         hmain.2.1 (by decide)⟩

/-- The buffersink pull loop leaves the surface count, the filter staging
flag and the held hardware frame unchanged: each pulled rescaled surface is
released again by `av_frame_unref` before the next step. -/
theorem scale_encode_loop_state (pulls : List Int) (finalRet : Int) (h : hve)
    (tr : List Event) (hfr : h.fr_holds = false) :
    (scale_encode_loop h pulls finalRet tr).2.1.surfaces = h.surfaces ∧
    (scale_encode_loop h pulls finalRet tr).2.1.fr_holds = false ∧
    (scale_encode_loop h pulls finalRet tr).2.1.hw_frame = h.hw_frame ∧
    (∃ tl, (scale_encode_loop h pulls finalRet tr).2.2 = tr ++ tl) := by
  induction pulls generalizing h tr with
  | nil =>
    by_cases h1 : finalRet = AVERROR_EAGAIN ∨ finalRet = AVERROR_EOF
    · simp [scale_encode_loop, h1, hfr]
    · by_cases h2 : finalRet < 0 <;> simp [scale_encode_loop, h1, h2, hfr]
  | cons r rest ih =>
    by_cases hr : r < 0
    · refine ⟨?_, ?_, ?_,
        ⟨[Event.pullFromSink, Event.sendScaled, Event.unrefFrFrame], ?_⟩⟩ <;>
        simp [scale_encode_loop, hr]
    · have hrec := ih { h with fr_holds := false, surfaces := h.surfaces + 1 - 1 }
        (tr ++ [Event.pullFromSink, Event.sendScaled, Event.unrefFrFrame]) rfl
      simp only [Nat.add_sub_cancel] at hrec
      obtain ⟨hs, hf, hw, tl, htl⟩ := hrec
      refine ⟨?_, ?_, ?_, ⟨[Event.pullFromSink, Event.sendScaled, Event.unrefFrFrame] ++ tl, ?_⟩⟩ <;>
        simp only [scale_encode_loop, hr, if_neg] <;>
        simp [hs, hf, hw, htl]

/-- The steady-state accounting bounds the owned surfaces by one. -/
theorem surface_invariant_le_one (h : hve) (hinv : surface_invariant h) :
    h.surfaces ≤ 1 := by
  rw [hinv.2]
  split <;> omega

/-- After `av_frame_free(&h->hw_frame)` the pipeline owns no surface (given
the steady-state accounting). -/
theorem free_hw_frame_state (h : hve)
    (hsur : h.surfaces = (if h.hw_frame = HwFrame.withSurface then 1 else 0)) :
    (free_hw_frame h).surfaces = 0 ∧
    (free_hw_frame h).hw_frame = HwFrame.noFrame ∧
    (free_hw_frame h).fr_holds = h.fr_holds ∧
    (free_hw_frame h).filter_graph = h.filter_graph := by
  by_cases hw : h.hw_frame = HwFrame.withSurface <;>
    simp [free_hw_frame, hw, hsur]

/-- `hw_upload` restores the steady-state accounting whatever the backend
does, does not touch the filter graph or staging flag, and only appends to
the trace. -/
theorem hw_upload_state (h : hve) (env : SendEnv) (tr : List Event)
    (hfr : h.fr_holds = false) (hsur : h.surfaces = 0)
    (hhw : h.hw_frame = HwFrame.noFrame) :
    surface_invariant (hw_upload h env tr).2.1 ∧
    (hw_upload h env tr).2.1.filter_graph = h.filter_graph ∧
    (∃ tl, (hw_upload h env tr).2.2 = tr ++ tl) := by
  by_cases h1 : env.hw_frame_alloc_ok
  · by_cases h2 : env.get_buffer_ok
    · by_cases h3 : env.hw_frames_ctx_ok
      · by_cases h4 : env.transfer_ok <;>
          exact ⟨by simp [hw_upload, surface_invariant, h1, h2, h3, h4, hfr, hsur, hhw],
                 by simp [hw_upload, h1, h2, h3, h4],
                 ⟨[Event.allocHwFrame, Event.getBuffer, Event.transferData],
                  by simp [hw_upload, h1, h2, h3, h4]⟩⟩
      · exact ⟨by simp [hw_upload, surface_invariant, h1, h2, h3, hfr, hsur, hhw],
               by simp [hw_upload, h1, h2, h3],
               ⟨[Event.allocHwFrame, Event.getBuffer],
                by simp [hw_upload, h1, h2, h3]⟩⟩
    · exact ⟨by simp [hw_upload, surface_invariant, h1, h2, hfr, hsur, hhw],
             by simp [hw_upload, h1, h2],
             ⟨[Event.allocHwFrame, Event.getBuffer],
              by simp [hw_upload, h1, h2]⟩⟩
  · exact ⟨by simp [hw_upload, surface_invariant, h1, hfr, hsur, hhw],
           by simp [hw_upload, h1],
           ⟨[Event.allocHwFrame], by simp [hw_upload, h1]⟩⟩

/-- `scale_encode` preserves the steady-state accounting and only appends to
the trace. -/
theorem scale_encode_state (h : hve) (env : SendEnv) (tr : List Event)
    (hinv : surface_invariant h) :
    surface_invariant (scale_encode h env tr).2.1 ∧
    (∃ tl, (scale_encode h env tr).2.2 = tr ++ tl) := by
  obtain ⟨hfr, hsur⟩ := hinv
  by_cases hp : env.buffersrc_add_frame_ok
  · obtain ⟨hs, hf, hw, tl, htl⟩ := scale_encode_loop_state env.sink_pulls
      env.sink_final h (tr ++ [Event.pushToFilter]) hfr
    refine ⟨⟨?_, ?_⟩, ⟨[Event.pushToFilter] ++ tl, ?_⟩⟩
    · simp [scale_encode, hp, hf]
    · simp [scale_encode, hp, hs, hw, hsur]
    · simp [scale_encode, hp, htl]
  · exact ⟨⟨by simp [scale_encode, hp, hfr], by simp [scale_encode, hp, hsur]⟩,
           ⟨[Event.pushToFilter], by simp [scale_encode, hp]⟩⟩

/-- C3: for every pipeline and every `hve_send_frame` call — with a real
frame or with NULL (flush) — the hardware surface held from the previous
call is released first (the call trace begins with the
`av_frame_free(&h->hw_frame)` step), and afterwards the pipeline again holds
at most one hardware surface awaiting encode (the steady-state accounting is
re-established, so the bound holds after any sequence of calls). -/
theorem hve_send_frame_single_inflight_surface (h : hve) (env : SendEnv)
    (frame : Option hve_frame) (hinv : surface_invariant h) :
    (∃ tl, (hve_send_frame h env frame).2.2 = Event.freeHwFrame :: tl) ∧
    (hve_send_frame h env frame).2.1.surfaces ≤ 1 ∧
    surface_invariant (hve_send_frame h env frame).2.1 := by
  obtain ⟨hfr, hsur⟩ := hinv
  obtain ⟨hf0, hf1, hf2, hf3⟩ := free_hw_frame_state h hsur
  cases frame with
  | none =>
    refine ⟨⟨(if (free_hw_frame h).filter_graph.isSome then [Event.markFilterEOF]
              else []) ++ [Event.flushEncoder], ?_⟩, ?_, ?_, ?_⟩
    · by_cases hflush : env.flush_send_ret < 0 <;> simp [hve_send_frame, hflush]
    · by_cases hflush : env.flush_send_ret < 0 <;>
        simp [hve_send_frame, hflush, hf0]
    · by_cases hflush : env.flush_send_ret < 0 <;>
        simp [hve_send_frame, hflush, hf2, hfr]
    · by_cases hflush : env.flush_send_ret < 0 <;>
        simp [hve_send_frame, hflush, hf0, hf1]
  | some f =>
    obtain ⟨hinvU, hfgU, tlU, htrU⟩ := hw_upload_state
      (stage_frame_descriptors (free_hw_frame h)) env [Event.freeHwFrame]
      (by simp [stage_frame_descriptors, free_hw_frame, hfr])
      (by simpa [stage_frame_descriptors] using hf0)
      (by simpa [stage_frame_descriptors] using hf1)
    simp only [hve_send_frame]
    rcases hu : hw_upload (stage_frame_descriptors (free_hw_frame h)) env
      [Event.freeHwFrame] with ⟨e, h2, tr2⟩
    rw [hu] at hinvU hfgU htrU
    dsimp only at hinvU hfgU htrU ⊢
    subst htrU
    by_cases he : e < 0
    · exact ⟨⟨tlU, by simp [he]⟩,
             surface_invariant_le_one _ (by simpa [he] using hinvU),
             by simpa [he] using hinvU⟩
    · by_cases hg2 : h2.filter_graph.isSome
      · obtain ⟨hinvS, tlS, htrS⟩ :=
          scale_encode_state h2 env ([Event.freeHwFrame] ++ tlU) hinvU
        refine ⟨⟨tlU ++ tlS, ?_⟩, ?_, ?_⟩
        · simp only [if_neg he, hg2, if_pos]
          simpa using htrS
        · simp only [if_neg he, hg2, if_pos]
          exact surface_invariant_le_one _ hinvS
        · simp only [if_neg he, hg2, if_pos]
          exact hinvS
      · refine ⟨⟨tlU ++ [Event.encodeDirect], ?_⟩, ?_, ?_⟩
        · by_cases henc : env.encode_send_ret < 0 <;>
            simp [if_neg he, hg2, encode, henc]
        · by_cases henc : env.encode_send_ret < 0 <;>
          · simp only [if_neg he, hg2, encode, henc, Bool.false_eq_true, if_false]
            exact surface_invariant_le_one _ (by simpa [henc] using hinvU)
        · by_cases henc : env.encode_send_ret < 0 <;>
          · simp only [if_neg he, hg2, encode, henc, Bool.false_eq_true, if_false]
            exact hinvU

/-- `av_frame_free(&h->hw_frame)` on a pipeline that holds no hardware
frame is a no-op. -/
theorem free_hw_frame_idem (x : hve) (hx : x.hw_frame = HwFrame.noFrame) :
    free_hw_frame x = x := by
  cases x
  simp_all [free_hw_frame]

/-- C8: for every pipeline already flushed by a previous
`hve_send_frame(NULL)`, a repeated `hve_send_frame(NULL)` is a tolerated
pass-through to the backend's idempotent flush: it returns `HVE_OK` and
leaves the pipeline state unchanged. -/
theorem hve_send_frame_repeated_flush_tolerated (h0 : hve)
    (env0 env1 : SendEnv) (hid : backend_flush_idempotent env1) :
    (hve_send_frame (hve_send_frame h0 env0 none).2.1 env1 none).1 = HVE_OK ∧
    (hve_send_frame (hve_send_frame h0 env0 none).2.1 env1 none).2.1 =
      (hve_send_frame h0 env0 none).2.1 := by
  unfold backend_flush_idempotent at hid
  have h1eq : (hve_send_frame h0 env0 none).2.1 = free_hw_frame h0 := by
    by_cases hf : env0.flush_send_ret < 0 <;> simp [hve_send_frame, hf]
  have hnof : (free_hw_frame h0).hw_frame = HwFrame.noFrame := by
    simp [free_hw_frame]
  rw [h1eq]
  constructor
  · simp [hve_send_frame, hid]
  · simp [hve_send_frame, hid, free_hw_frame_idem _ hnof]

/-- Witness for C8: flushing the plain example pipeline twice (first flush
through an environment whose backend refuses nothing in particular) returns
`HVE_OK` the second time and changes nothing. -/
theorem hve_send_frame_repeated_flush_tolerated_witness :
    (hve_send_frame
      (hve_send_frame (initExpected cfgBaseExample) sendEnvEofFailExample none).2.1
      sendEnvEofFailExample none).1 = HVE_OK :=
  (hve_send_frame_repeated_flush_tolerated (initExpected cfgBaseExample)
    sendEnvEofFailExample sendEnvEofFailExample rfl).1

/-- The codec context built by `hve_init` carries the configured bitrate. -/
theorem codec_ctx_of_bit_rate (config : hve_config) :
    (codec_ctx_of config).bit_rate = config.bit_rate := by
  unfold codec_ctx_of
  (repeat' split) <;> rfl

/-- Projection of the expected pipeline state onto its codec context. -/
theorem initExpected_avctx (config : hve_config) :
    (initExpected config).avctx =
      some { codec_ctx_of config with
               hw_frames_ctx :=
                 some (expected_frames_ctx config (resolve_sw_pix_fmt config)) } := rfl

/-- C2: for every configuration in which both bit_rate and qp are non-zero,
the encoder session opened by `hve_init` carries the configured bitrate and
(by the backend's spec-modelled rate-control selection) operates in
average-bitrate mode; the quantizer parameter, although passed in the
options dictionary, is not applied to the session. -/
theorem hve_init_bitrate_wins_rate_control (env : InitEnv)
    (config : hve_config) (h : hve) (log : List REvent)
    (ctx : AVCodecContext) (hok : hve_init env config = .ok h log)
    (hctx : h.avctx = some ctx) (hbr : config.bit_rate ≠ 0)
    (hqp : config.qp ≠ 0) :
    ctx.bit_rate = config.bit_rate ∧
    session_rate_control ctx.bit_rate = RateControlMode.vbr ∧
    h.opened_qp = some config.qp ∧
    session_qp_applied ctx.bit_rate h.opened_qp = false := by
  obtain ⟨-, rfl⟩ := hve_init_ok_shape env config h log hok
  rw [initExpected_avctx] at hctx
  injection hctx with hctx
  subst hctx
  have hb : ({ codec_ctx_of config with
                 hw_frames_ctx :=
                   some (expected_frames_ctx config (resolve_sw_pix_fmt config))
             } : AVCodecContext).bit_rate = config.bit_rate := by
    simpa using codec_ctx_of_bit_rate config
  refine ⟨hb, ?_, ?_, ?_⟩
  · rw [hb]
    simp [session_rate_control, hbr]
  · simp [initExpected, hqp]
  · rw [hb]
    simp [session_qp_applied, session_rate_control, hbr]

/-- Witness for C2: with bit_rate 2000000 and qp 25 both set, the opened
session is in VBR mode and the quantizer is not applied. -/
theorem hve_init_bitrate_wins_rate_control_witness :
    session_rate_control
        ({ codec_ctx_of cfgRateExample with
             hw_frames_ctx :=
               some (expected_frames_ctx cfgRateExample
                 (resolve_sw_pix_fmt cfgRateExample)) } : AVCodecContext).bit_rate =
      RateControlMode.vbr ∧
    session_qp_applied
        ({ codec_ctx_of cfgRateExample with
             hw_frames_ctx :=
               some (expected_frames_ctx cfgRateExample
                 (resolve_sw_pix_fmt cfgRateExample)) } : AVCodecContext).bit_rate
        (initExpected cfgRateExample).opened_qp = false := by
  have hmain := hve_init_bitrate_wins_rate_control envAll cfgRateExample
    (initExpected cfgRateExample) initLogRateExample _
    (by decide) rfl (by decide) (by decide)
  exact ⟨hmain.2.1, hmain.2.2.2⟩

/-- Witness for C3: submitting a concrete frame to the plain example
pipeline (all backend calls succeeding) frees the previous hardware frame
first and leaves at most one surface in flight. -/
theorem hve_send_frame_single_inflight_surface_witness :
    (hve_send_frame (initExpected cfgBaseExample) sendEnvEofFailExample
        (some ⟨[0, 1], [2560, 2560]⟩)).2.1.surfaces ≤ 1 :=
  (hve_send_frame_single_inflight_surface (initExpected cfgBaseExample)
    sendEnvEofFailExample (some ⟨[0, 1], [2560, 2560]⟩) (by decide)).2.1

/-- C7: for every configuration whose resolved software pixel format has
maximum component bit depth 10, the working (transfer) format of the
hardware frame pool created by `hve_init` is the 10-bit biplanar 4:2:0
format `P010LE`; for every other valid depth it is the 8-bit biplanar 4:2:0
format `NV12`. -/
theorem hve_init_sw_format_by_depth (env : InitEnv) (config : hve_config)
    (h : hve) (log : List REvent) (ctx : AVCodecContext)
    (fctx : AVHWFramesContext) (d : Int)
    (hok : hve_init env config = .ok h log) (hctx : h.avctx = some ctx)
    (hf : ctx.hw_frames_ctx = some fctx)
    (hd : hve_pixel_format_depth h.sw_pix_fmt = some d) :
    (d = 10 → fctx.sw_format = .P010LE) ∧
    (d ≠ 10 → fctx.sw_format = .NV12) := by
  obtain ⟨-, rfl⟩ := hve_init_ok_shape env config h log hok
  rw [initExpected_avctx] at hctx
  injection hctx with hctx
  subst hctx
  simp only at hf
  injection hf with hf
  subst hf
  have hsw : (initExpected config).sw_pix_fmt = resolve_sw_pix_fmt config := rfl
  rw [hsw] at hd
  constructor
  · intro h10
    subst h10
    simp [expected_frames_ctx, hd]
  · intro h10
    simp [expected_frames_ctx, hd, h10]

/-- Witness for C7: the `"p010le"` software format (depth 10) gives a
`P010LE` pool working format, and the default `NV12` software format
(depth 8) gives an `NV12` pool working format. -/
theorem hve_init_sw_format_by_depth_witness :
    (expected_frames_ctx cfgTenBitExample
        (resolve_sw_pix_fmt cfgTenBitExample)).sw_format = .P010LE ∧
    (expected_frames_ctx cfgBaseExample
        (resolve_sw_pix_fmt cfgBaseExample)).sw_format = .NV12 := by
  constructor
  · exact (hve_init_sw_format_by_depth envAll cfgTenBitExample
      (initExpected cfgTenBitExample) initLogBaseExample _ _ 10
      (by decide) rfl rfl (by decide)).1 rfl
  · exact (hve_init_sw_format_by_depth envAll cfgBaseExample
      (initExpected cfgBaseExample) initLogBaseExample _ _ 8
      (by decide) rfl rfl (by decide)).2 (by decide)

/-- C10: `hve_init` substitutes defaults for NULL or empty configuration
strings — a NULL/empty device means automatic selection (a NULL device
argument), a NULL/empty encoder name means `"h264_vaapi"`, a NULL/empty
pixel_format means the `NV12` software format — and a non-empty
pixel_format string naming no known pixel format makes `hve_init` fail and
return NULL. -/
theorem hve_init_string_defaults :
    (∀ (env : InitEnv) (config : hve_config) (h : hve) (log : List REvent),
      hve_init env config = .ok h log →
      ((config.device = none ∨ config.device = some "") →
        h.used_device = none) ∧
      ((config.encoder = none ∨ config.encoder = some "") →
        h.used_encoder = "h264_vaapi") ∧
      ((config.pixel_format = none ∨ config.pixel_format = some "") →
        h.sw_pix_fmt = .NV12)) ∧
    (∀ (env : InitEnv) (config : hve_config) (s : String),
      config.pixel_format = some s → s ≠ "" → av_get_pix_fmt s = .NONE →
      (hve_init env config).isFail = true) := by
  constructor
  · intro env config h log hok
    obtain ⟨-, rfl⟩ := hve_init_ok_shape env config h log hok
    refine ⟨?_, ?_, ?_⟩
    · rintro (hd | hd) <;> simp [initExpected, device_arg, hd]
    · rintro (hd | hd) <;> simp [initExpected, encoder_name, hd]
    · rintro (hd | hd) <;> simp [initExpected, resolve_sw_pix_fmt, hd]
  · intro env config s hs hne hnone
    cases hres : hve_init env config with
    | fail log => simp [InitResult.isFail]
    | ok h log =>
      obtain ⟨hresolve, -⟩ := hve_init_ok_shape env config h log hres
      exact absurd (by simp [resolve_sw_pix_fmt, hs, hne, hnone]) hresolve

/-- Witness for C10: a defaults-only configuration opens with automatic
device selection, the `"h264_vaapi"` encoder and the `NV12` software
format, while the unknown pixel-format name `"notapixfmt"` makes `hve_init`
fail. -/
theorem hve_init_string_defaults_witness :
    (initExpected cfgBaseExample).used_device = none ∧
    (initExpected cfgBaseExample).used_encoder = "h264_vaapi" ∧
    (initExpected cfgBaseExample).sw_pix_fmt = .NV12 ∧
    (hve_init envAll { cfgBaseExample with
        pixel_format := some "notapixfmt" }).isFail = true := by
  have hmain := hve_init_string_defaults
  have hok := hmain.1 envAll cfgBaseExample (initExpected cfgBaseExample)
    initLogBaseExample (by decide)
  exact ⟨hok.1 (Or.inl rfl), hok.2.1 (Or.inl rfl), hok.2.2 (Or.inl rfl),
         hmain.2 envAll _ "notapixfmt" rfl (by decide) (by decide)⟩

/-- C4: with input dimensions equal to the output dimensions, or with the
input dimensions unset (zero), `hve_init` constructs no Scaling Stage;
every subsequent `hve_send_frame` with a real frame never touches the
scaling graph and, when the upload succeeds, submits the uploaded surface
directly to the Encode Stage; and setting the input dimensions equal to the
output dimensions behaves identically to not setting them (`hve_init`
returns the same result, so the whole pipeline behaves the same). -/
theorem hve_init_no_scaling_when_dims_match :
    (∀ (env : InitEnv) (config : hve_config) (h : hve) (log : List REvent),
      hve_init env config = .ok h log →
      ((config.input_width = config.width ∧
        config.input_height = config.height) ∨
       (config.input_width = 0 ∧ config.input_height = 0)) →
      h.filter_graph = none) ∧
    (∀ (h : hve) (env : SendEnv) (f : hve_frame), h.filter_graph = none →
      (hve_send_frame h env (some f)).2.2.contains Event.pushToFilter = false ∧
      (upload_succeeds env →
        (hve_send_frame h env (some f)).2.2.contains Event.encodeDirect = true)) ∧
    (∀ (env : InitEnv) (config : hve_config),
      hve_init env { config with input_width := config.width
                                 input_height := config.height } =
      hve_init env { config with input_width := 0, input_height := 0 }) := by
  refine ⟨?_, ?_, ?_⟩
  · intro env config h log hok hdims
    obtain ⟨-, rfl⟩ := hve_init_ok_shape env config h log hok
    have hsr : scaling_requested config = false := by
      rcases hdims with ⟨hw, hh⟩ | ⟨hw, hh⟩ <;> simp [scaling_requested, hw, hh]
    simp [initExpected, hsr]
  · intro h env f hg
    have hfree : (free_hw_frame h).filter_graph = none := by
      simp [free_hw_frame, hg]
    have hstage : (stage_frame_descriptors (free_hw_frame h)).filter_graph = none := by
      simp [stage_frame_descriptors, hfree]
    by_cases h1 : env.hw_frame_alloc_ok
    · by_cases h2 : env.get_buffer_ok
      · by_cases h3 : env.hw_frames_ctx_ok
        · by_cases h4 : env.transfer_ok
          · by_cases henc : env.encode_send_ret < 0 <;>
              constructor <;>
                simp [hve_send_frame, hw_upload, encode, upload_succeeds,
                      HVE_OK, HVE_ERROR, h1, h2, h3, h4, henc, hstage]
          · constructor <;>
              simp [hve_send_frame, hw_upload, upload_succeeds,
                    HVE_OK, HVE_ERROR, h1, h2, h3, h4]
        · constructor <;>
            simp [hve_send_frame, hw_upload, upload_succeeds,
                  HVE_OK, HVE_ERROR, h1, h2, h3]
      · constructor <;>
          simp [hve_send_frame, hw_upload, upload_succeeds,
                HVE_OK, HVE_ERROR, h1, h2]
    · constructor <;>
        simp [hve_send_frame, hw_upload, upload_succeeds,
              HVE_OK, HVE_ERROR, h1]
  · intro env config
    have e_dev : hve_init_device env
        { config with input_width := config.width, input_height := config.height } =
      hve_init_device env { config with input_width := 0, input_height := 0 } := rfl
    have e_codec : hve_init_codec env
        { config with input_width := config.width, input_height := config.height } =
      hve_init_codec env { config with input_width := 0, input_height := 0 } := rfl
    have e_swfmt : hve_init_swfmt
        { config with input_width := config.width, input_height := config.height } =
      hve_init_swfmt { config with input_width := 0, input_height := 0 } := rfl
    have e_opts : hve_init_opts env
        { config with input_width := config.width, input_height := config.height } =
      hve_init_opts env { config with input_width := 0, input_height := 0 } := rfl
    have e_hw : hve_init_hwframes env
        { config with input_width := config.width, input_height := config.height } =
      hve_init_hwframes env { config with input_width := 0, input_height := 0 } := by
      funext h log
      simp [hve_init_hwframes, init_hwframes_context]
    have e_scaling : hve_init_scaling env
        { config with input_width := config.width, input_height := config.height } =
      hve_init_scaling env { config with input_width := 0, input_height := 0 } := by
      funext h log
      simp [hve_init_scaling, scaling_requested]
    have e_frames : hve_init_frames env
        { config with input_width := config.width, input_height := config.height } =
      hve_init_frames env { config with input_width := 0, input_height := 0 } := by
      funext h log
      simp [hve_init_frames]
    unfold hve_init
    rw [e_dev, e_codec, e_swfmt, e_opts, e_hw, e_scaling, e_frames]

/-- Witness for C4: the equal-dimensions configuration builds no scaling
graph, a graphless pipeline encodes the uploaded surface directly, and
setting input dimensions to the output dimensions gives the same `hve_init`
result as leaving them unset. -/
theorem hve_init_no_scaling_when_dims_match_witness :
    (initExpected cfgEqDimsExample).filter_graph = none ∧
    (hve_send_frame (initExpected cfgBaseExample) sendEnvEofFailExample
        (some ⟨[0, 1], [2560, 2560]⟩)).2.2.contains Event.encodeDirect = true ∧
    hve_init envAll { cfgBaseExample with input_width := cfgBaseExample.width
                                          input_height := cfgBaseExample.height } =
      hve_init envAll { cfgBaseExample with input_width := 0
                                            input_height := 0 } := by
  have hmain := hve_init_no_scaling_when_dims_match
  exact ⟨hmain.1 envAll cfgEqDimsExample (initExpected cfgEqDimsExample)
           initLogBaseExample (by decide) (Or.inl (by decide)),
         (hmain.2.1 (initExpected cfgBaseExample) sendEnvEofFailExample
           ⟨[0, 1], [2560, 2560]⟩ (by decide)).2 (by decide),
         hmain.2.2 envAll cfgBaseExample⟩

/-- C6 (evidence of the code defect): on the scaling configuration the
source node is parameterized with the input dimensions and framerate and
bound to the encoder's hardware surface pool, but its declared hardware
pixel format (`AV_PIX_FMT_VAAPI`, hard-coded in the source-node argument
string) differs from the format of the frame pool the encoder was
configured with (`AV_PIX_FMT_CUDA`, set by `init_hwframes_context` on the
CUDA device) — contradicting the claim that they are the same. -/
theorem hve_scaling_source_format_mismatch :
    ∃ (h : hve) (log : List REvent),
      hve_init envAll cfgScaleExample = .ok h log ∧
      h.buffersrc_ctx = some srcScaleExample ∧
      h.avctx = some ctxScaleExample ∧
      ctxScaleExample.hw_frames_ctx = some fctxScaleExample ∧
      srcScaleExample.width = 1920 ∧ srcScaleExample.height = 1080 ∧
      srcScaleExample.time_base = (1, 30) ∧
      srcScaleExample.hw_frames_ctx = some fctxScaleExample ∧
      srcScaleExample.pix_fmt = AVPixelFormat.VAAPI ∧
      fctxScaleExample.format = AVPixelFormat.CUDA ∧
      srcScaleExample.pix_fmt ≠ fctxScaleExample.format :=
  ⟨initExpected cfgScaleExample, initLogScaleExample, by decide⟩

/-- C9 (evidence of the code defect): with the recognised pixel-format name
`"cuda"` — whose descriptor has no components, so the depth introspection
inside `init_hwframes_context` fails — `hve_init` fails and returns NULL,
but the freshly allocated hardware frame-pool reference (`hw_frames_ref`)
is never released: the early `return HVE_ERROR_MSG(...)` on the depth
failure path skips `av_buffer_unref(&hw_frames_ref)`, so not every
previously acquired resource is released. -/
theorem hve_init_depth_failure_leaks_frames_ref :
    hve_init envAll cfgCudaExample = .fail initLogCudaExample ∧
    initLogCudaExample.count (REvent.acq .framesRef) = 1 ∧
    initLogCudaExample.count (REvent.rel .framesRef) = 0 ∧
    balanced initLogCudaExample = false := by decide

end HVE
